import Mathlib

/-!
Verification development for the pidrone state-estimator coordinator
(`state_estimator.py`). The Python source is shallowly embedded below:
pure command composition becomes Lean functions on an `Estimator`
enumeration; the callback-driven fusion logic becomes explicit state
passing over a `StateEstimatorNode` record; the `main` lifecycle
(try/except/finally around construction and subprocess termination)
becomes a function from a setup outcome to the observable termination
attempts.
-/

namespace Pidrone

/-! ## Message data model

Mirror of the ROS `State` message layout used by the coordinator
(`pose_with_covariance` and `twist_with_covariance` blocks). Scalars are
modelled as integers: the coordinator only copies field values between
records, never computes with them, so any value type with decidable
equality is a faithful carrier.
-/

structure Point where
  x : Int
  y : Int
  z : Int
  deriving DecidableEq, Repr

structure Quaternion where
  x : Int
  y : Int
  z : Int
  w : Int
  deriving DecidableEq, Repr

structure Vector3 where
  x : Int
  y : Int
  z : Int
  deriving DecidableEq, Repr

structure Pose where
  position : Point
  orientation : Quaternion
  deriving DecidableEq, Repr

structure PoseWithCovariance where
  pose : Pose
  covariance : List Int
  deriving DecidableEq, Repr

structure Twist where
  linear : Vector3
  angular : Vector3
  deriving DecidableEq, Repr

structure TwistWithCovariance where
  twist : Twist
  covariance : List Int
  deriving DecidableEq, Repr

structure Header where
  stamp : Nat
  deriving DecidableEq, Repr

structure State where
  header : Header
  pose_with_covariance : PoseWithCovariance
  twist_with_covariance : TwistWithCovariance
  deriving DecidableEq, Repr

/-- Modelled from the spec: `State()` is the message constructor of the
external `pidrone_pkg` package (not part of this repository's sources).
Per ROS message semantics and the spec's AuxiliaryCache invariant, a
freshly constructed record's fields "default to a defined neutral value
(zero)". -/
def State.default : State :=
  { header := { stamp := 0 },
    pose_with_covariance :=
      { pose := { position := { x := 0, y := 0, z := 0 },
                  orientation := { x := 0, y := 0, z := 0, w := 0 } },
        covariance := List.replicate 36 0 },
    twist_with_covariance :=
      { twist := { linear := { x := 0, y := 0, z := 0 },
                   angular := { x := 0, y := 0, z := 0 } },
        covariance := List.replicate 36 0 } }

/-! ## Estimator registry and command composition -/

/-- The closed enumeration of estimator identifiers accepted by the
command line (`arg_choices` in `main`). -/
inductive Estimator where
  | ema
  | ukf2d
  | ukf7d
  | simulator
  deriving DecidableEq, Repr

/-- The string form of an estimator identifier, as it appears in the
Python source (estimators are plain strings there). -/
def Estimator.str : Estimator → String
  | .ema => "ema"
  | .ukf2d => "ukf2d"
  | .ukf7d => "ukf7d"
  | .simulator => "simulator"

/-- `self.process_cmds_dict` from `StateEstimator.__init__`: the launch
command template per estimator (the simulator entry embeds `sdim`). -/
def process_cmds_dict (sdim : Nat) : Estimator → String
  | .ema => "python StateEstimators/state_estimator_ema.py"
  | .ukf2d => "python StateEstimators/student_state_estimator_ukf_2d.py"
  | .ukf7d => "python StateEstimators/student_state_estimator_ukf_7d.py"
  | .simulator => "rosrun pidrone_pkg drone_simulator.py --dim " ++ toString sdim

/-- `self.can_use_throttled_ir` from `StateEstimator.__init__`. -/
def can_use_throttled_ir : List Estimator := [.ukf2d, .ukf7d]

/-- `self.can_use_throttled_imu` from `StateEstimator.__init__`. -/
def can_use_throttled_imu : List Estimator := [.ukf2d, .ukf7d]

/-- `self.can_use_throttled_optical_flow` from `StateEstimator.__init__`. -/
def can_use_throttled_optical_flow : List Estimator := [.ukf7d]

/-- `self.can_use_throttled_camera_pose` from `StateEstimator.__init__`. -/
def can_use_throttled_camera_pose : List Estimator := [.ukf7d]

/-- `StateEstimator.append_throttle_flags`: appends each throttle flag
whose `can_use` list contains the estimator. Note that, as in the
source, this function does not consult the constructor's throttle
booleans at all. -/
def append_throttle_flags (cmd : String) (estimator : Estimator) : String :=
  let cmd := if can_use_throttled_ir.contains estimator then
    cmd ++ " --ir_throttled" else cmd
  let cmd := if can_use_throttled_imu.contains estimator then
    cmd ++ " --imu_throttled" else cmd
  let cmd := if can_use_throttled_optical_flow.contains estimator then
    cmd ++ " --optical_flow_throttled" else cmd
  let cmd := if can_use_throttled_camera_pose.contains estimator then
    cmd ++ " --camera_pose_throttled" else cmd
  cmd

/-- The command-list construction of
`StateEstimator.start_estimator_subprocess_cmds`: primary command first
(with flags appended), then — when the primary is `ukf2d` — the raw EMA
command, then each entry of `others`, guarded by the source's
`if other_estimator not in process_cmds` test. That test compares the
estimator id STRING against the list of full COMMAND strings, exactly as
the Python does. The resulting list is what gets handed to
`subprocess.Popen`, one process per entry. -/
def start_estimator_subprocess_cmds (primary : Estimator)
    (others : Option (List Estimator)) (sdim : Nat) : List String :=
  let cmd := append_throttle_flags (process_cmds_dict sdim primary) primary
  let process_cmds := [cmd]
  let process_cmds :=
    if primary = .ukf2d then process_cmds ++ [process_cmds_dict sdim .ema]
    else process_cmds
  match others with
  | none => process_cmds
  | some os =>
      os.foldl
        (fun acc other =>
          if acc.contains other.str then acc
          else acc ++ [append_throttle_flags (process_cmds_dict sdim other) other])
        process_cmds

/-- The four boolean throttle parameters of `StateEstimator.__init__`
(`ir_throttled`, `imu_throttled`, `optical_flow_throttled`,
`camera_pose_throttled`). -/
structure ThrottleFlags where
  ir_throttled : Bool
  imu_throttled : Bool
  optical_flow_throttled : Bool
  camera_pose_throttled : Bool
  deriving DecidableEq, Repr

/-- The command list produced by a `StateEstimator` constructed with the
given arguments. As in `StateEstimator.__init__`, the four throttle
booleans are accepted as parameters but are never read anywhere in the
class, so command composition proceeds without them. -/
def stateEstimator_process_cmds (primary : Estimator)
    (others : Option (List Estimator)) (flags : ThrottleFlags) (sdim : Nat) :
    List String :=
  start_estimator_subprocess_cmds primary others sdim

/-! ## Fusion engine: node state and callbacks -/

/-- The mutable runtime state of a `StateEstimator` node that the two
message callbacks touch: the primary-estimator choice, the reused output
record `self.state_msg`, the auxiliary cache `self.ema_state_msg`, and
the trace of messages handed to `self.state_pub.publish`. -/
structure StateEstimatorNode where
  primary_estimator : Estimator
  state_msg : State
  ema_state_msg : State
  published : List State
  deriving DecidableEq, Repr

/-- The node state right after `StateEstimator.__init__` assigns
`self.state_msg = State()` and (for the `ukf2d` topology)
`self.ema_state_msg = State()`: both records freshly constructed,
nothing published yet. -/
def initial_node (primary : Estimator) : StateEstimatorNode :=
  { primary_estimator := primary,
    state_msg := State.default,
    ema_state_msg := State.default,
    published := [] }

/-- `StateEstimator.state_callback`: stamps the output record with the
current time, draws x/y/vel_x/vel_y from the EMA cache when the primary
is `ukf2d` and from `msg` otherwise, always draws z/vel_z/orientation/
angular velocity and both covariance blocks from `msg`, and publishes
the updated output record. Every field of the output record is
reassigned, so the in-place Python update is the same as building the
record afresh. -/
def state_callback (s : StateEstimatorNode) (now : Nat) (msg : State) :
    StateEstimatorNode :=
  let x := if s.primary_estimator = .ukf2d then
    s.ema_state_msg.pose_with_covariance.pose.position.x
    else msg.pose_with_covariance.pose.position.x
  let y := if s.primary_estimator = .ukf2d then
    s.ema_state_msg.pose_with_covariance.pose.position.y
    else msg.pose_with_covariance.pose.position.y
  let vel_x := if s.primary_estimator = .ukf2d then
    s.ema_state_msg.twist_with_covariance.twist.linear.x
    else msg.twist_with_covariance.twist.linear.x
  let vel_y := if s.primary_estimator = .ukf2d then
    s.ema_state_msg.twist_with_covariance.twist.linear.y
    else msg.twist_with_covariance.twist.linear.y
  let z := msg.pose_with_covariance.pose.position.z
  let vel_z := msg.twist_with_covariance.twist.linear.z
  let orientation := msg.pose_with_covariance.pose.orientation
  let vel_angular := msg.twist_with_covariance.twist.angular
  let new_state_msg : State :=
    { header := { stamp := now },
      pose_with_covariance :=
        { pose := { position := { x := x, y := y, z := z },
                    orientation := orientation },
          covariance := msg.pose_with_covariance.covariance },
      twist_with_covariance :=
        { twist := { linear := { x := vel_x, y := vel_y, z := vel_z },
                     angular := vel_angular },
          covariance := msg.twist_with_covariance.covariance } }
  { s with state_msg := new_state_msg,
           published := s.published ++ [new_state_msg] }

/-- `StateEstimator.ema_helper_callback`: overwrites exactly the
x/y positions and x/y linear velocities of `self.ema_state_msg` with
`msg`'s corresponding fields; nothing else is touched and nothing is
published. -/
def ema_helper_callback (s : StateEstimatorNode) (msg : State) :
    StateEstimatorNode :=
  let e := s.ema_state_msg
  let e := { e with pose_with_covariance :=
    { e.pose_with_covariance with pose :=
      { e.pose_with_covariance.pose with position :=
        { e.pose_with_covariance.pose.position with
            x := msg.pose_with_covariance.pose.position.x,
            y := msg.pose_with_covariance.pose.position.y } } } }
  let e := { e with twist_with_covariance :=
    { e.twist_with_covariance with twist :=
      { e.twist_with_covariance.twist with linear :=
        { e.twist_with_covariance.twist.linear with
            x := msg.twist_with_covariance.twist.linear.x,
            y := msg.twist_with_covariance.twist.linear.y } } } }
  { s with ema_state_msg := e }

/-! ## Coordinator lifecycle (`main`)

`main` wraps construction in `try: se = StateEstimator(...)` with
`except Exception as e: print e` and a `finally` block that iterates
`se.processes` calling `process.terminate()` on each. Two facts of
Python semantics are embedded:

* if the constructor raises (or is interrupted) after launching some
  subprocesses, the local `se` was never bound, so the `finally` block's
  `se.processes` raises `NameError` before any `terminate()` call;
* `process.terminate()` is called bare, with no surrounding
  try/except, so if it raises the loop aborts and the exception
  propagates out of `main`.
-/

/-- A subprocess tracked in `self.processes`: its command string and
whether its `terminate()` call would raise at shutdown (e.g. `OSError`
because the process is already gone). -/
structure TrackedProcess where
  name : String
  terminate_raises : Bool
  deriving DecidableEq, Repr

/-- How the `try` body of `main` ended: `ok` when the `StateEstimator`
constructor returned (binding `se`), `raisedAfter` when it raised or was
interrupted after having launched the given subprocesses (leaving `se`
unbound). -/
inductive SetupOutcome where
  | ok (procs : List TrackedProcess)
  | raisedAfter (procs : List TrackedProcess)
  deriving DecidableEq, Repr

/-- What is observable of one run of `main`: which tracked processes
received a `terminate()` call, in order, and whether an exception
escaped `main` uncaught. -/
structure MainResult where
  termination_attempts : List String
  uncaught_error : Bool
  deriving DecidableEq, Repr

/-- The `finally` loop `for process_name, process in se.processes:
process.terminate()`: each process is attempted in launch order until
one `terminate()` raises, at which point the loop aborts and the
exception propagates. -/
def terminate_loop : List TrackedProcess → List String × Bool
  | [] => ([], false)
  | p :: ps =>
      if p.terminate_raises then ([p.name], true)
      else
        let r := terminate_loop ps
        (p.name :: r.1, r.2)

/-- The try/except/finally of `main`: on a completed construction the
`finally` loop runs over `se.processes`; on a construction that raised,
`se` is unbound and evaluating `se.processes` raises `NameError`, so no
process receives a termination attempt and the error escapes `main`. -/
def main_run : SetupOutcome → MainResult
  | .ok procs =>
      let r := terminate_loop procs
      { termination_attempts := r.1, uncaught_error := r.2 }
  | .raisedAfter _ =>
      { termination_attempts := [], uncaught_error := true }

/-! ## Sample messages for concrete instantiations -/

/-- A concrete auxiliary (EMA) message with x=1, y=2, vel_x=3, vel_y=4. -/
def aux_sample : State :=
  { header := { stamp := 0 },
    pose_with_covariance :=
      { pose := { position := { x := 1, y := 2, z := 0 },
                  orientation := { x := 0, y := 0, z := 0, w := 0 } },
        covariance := List.replicate 36 0 },
    twist_with_covariance :=
      { twist := { linear := { x := 3, y := 4, z := 0 },
                   angular := { x := 0, y := 0, z := 0 } },
        covariance := List.replicate 36 0 } }

/-- A concrete primary message with z=5, vel_z=6 (and distinctive values
elsewhere). -/
def primary_sample : State :=
  { header := { stamp := 0 },
    pose_with_covariance :=
      { pose := { position := { x := 70, y := 71, z := 5 },
                  orientation := { x := 8, y := 9, z := 10, w := 11 } },
        covariance := List.replicate 36 12 },
    twist_with_covariance :=
      { twist := { linear := { x := 72, y := 73, z := 6 },
                   angular := { x := 13, y := 14, z := 15 } },
        covariance := List.replicate 36 16 } }

/-! ## Theorems -/

/-- Claim C1, settled against the code: the claim is violated on the
setup-error exit path. If the `StateEstimator` constructor raises after
launching a subprocess (e.g. `Popen` of a later command raises), the
`except` clause prints the error but the `finally` block evaluates
`se.processes` with `se` unbound, raising `NameError` before any
`terminate()` call: the launched process receives zero termination
attempts and outlives the coordinator, against the claimed "exactly one
termination attempt on every exit path". -/
theorem C1_setup_error_skips_all_termination :
    main_run (SetupOutcome.raisedAfter
      [{ name := "python StateEstimators/state_estimator_ema.py",
         terminate_raises := false }]) =
      { termination_attempts := [], uncaught_error := true } := rfl

/-- Claim C2: with primary = `ukf2d`, after an EMA auxiliary message with
x=1, y=2, vel_x=3, vel_y=4 is handled and then any primary message with
z=5, vel_z=6 is handled, the published output record has exactly
x=1, y=2, z=5, vel_x=3, vel_y=4, vel_z=6. -/
theorem C2_ukf2d_cross_source_fusion
    (s : StateEstimatorNode) (aux msg : State) (now : Nat)
    (hp : s.primary_estimator = Estimator.ukf2d)
    (hx : aux.pose_with_covariance.pose.position.x = 1)
    (hy : aux.pose_with_covariance.pose.position.y = 2)
    (hvx : aux.twist_with_covariance.twist.linear.x = 3)
    (hvy : aux.twist_with_covariance.twist.linear.y = 4)
    (hz : msg.pose_with_covariance.pose.position.z = 5)
    (hvz : msg.twist_with_covariance.twist.linear.z = 6) :
    let out := (state_callback (ema_helper_callback s aux) now msg).state_msg
    out.pose_with_covariance.pose.position.x = 1 ∧
    out.pose_with_covariance.pose.position.y = 2 ∧
    out.pose_with_covariance.pose.position.z = 5 ∧
    out.twist_with_covariance.twist.linear.x = 3 ∧
    out.twist_with_covariance.twist.linear.y = 4 ∧
    out.twist_with_covariance.twist.linear.z = 6 ∧
    (state_callback (ema_helper_callback s aux) now msg).published =
      s.published ++ [out] := by
  simp [state_callback, ema_helper_callback, hp, hx, hy, hvx, hvy, hz, hvz]

/-- Witness for C2 at the concrete initial node and sample messages. -/
theorem C2_witness :
    (let out := (state_callback
        (ema_helper_callback (initial_node Estimator.ukf2d) aux_sample)
        10 primary_sample).state_msg
     out.pose_with_covariance.pose.position.x = 1 ∧
     out.pose_with_covariance.pose.position.y = 2 ∧
     out.pose_with_covariance.pose.position.z = 5 ∧
     out.twist_with_covariance.twist.linear.x = 3 ∧
     out.twist_with_covariance.twist.linear.y = 4 ∧
     out.twist_with_covariance.twist.linear.z = 6 ∧
     (state_callback
        (ema_helper_callback (initial_node Estimator.ukf2d) aux_sample)
        10 primary_sample).published =
       (initial_node Estimator.ukf2d).published ++ [out]) :=
  C2_ukf2d_cross_source_fusion (initial_node Estimator.ukf2d) aux_sample
    primary_sample 10 rfl rfl rfl rfl rfl rfl rfl

/-- Claim C3, settled against the code: the claim is violated. The dedup
guard `if other_estimator not in process_cmds` tests the id string
("ema") for membership in the list of full command strings, which never
matches, so requesting primary=ema, others=[ema, ukf7d] launches THREE
processes — the EMA command twice — not the claimed two. -/
theorem C3_duplicate_id_launches_three :
    start_estimator_subprocess_cmds Estimator.ema
        (some [Estimator.ema, Estimator.ukf7d]) 1 =
      ["python StateEstimators/state_estimator_ema.py",
       "python StateEstimators/state_estimator_ema.py",
       "python StateEstimators/student_state_estimator_ukf_7d.py --ir_throttled --imu_throttled --optical_flow_throttled --camera_pose_throttled"] := by
  decide

/-- Claim C4, settled against the code: the claim's "only the subset the
caller requested" is violated. With all four throttle booleans false,
the ukf7d command still carries all four throttle flags, because
`append_throttle_flags` consults only the `can_use` lists and the
constructor's throttle parameters are never read. -/
theorem C4_unrequested_flags_still_appended :
    stateEstimator_process_cmds Estimator.ukf7d none
        { ir_throttled := false, imu_throttled := false,
          optical_flow_throttled := false, camera_pose_throttled := false } 1 =
      ["python StateEstimators/student_state_estimator_ukf_7d.py --ir_throttled --imu_throttled --optical_flow_throttled --camera_pose_throttled"] := by
  decide

/-- Counterexample to claim C5: with two tracked processes whose first
`terminate()` raises, only the first receives a termination attempt, the
second is never attempted, and the exception propagates out of `main` —
the failure is neither caught nor recorded. -/
theorem C5_counterexample_failure_propagates :
    main_run (SetupOutcome.ok
      [{ name := "python StateEstimators/state_estimator_ema.py",
         terminate_raises := true },
       { name := "python StateEstimators/student_state_estimator_ukf_7d.py --ir_throttled --imu_throttled --optical_flow_throttled --camera_pose_throttled",
         terminate_raises := false }]) =
      { termination_attempts := ["python StateEstimators/state_estimator_ema.py"],
        uncaught_error := true } := rfl

/-- Helper: the finally loop attempts each process in launch order until
the first whose `terminate()` raises, then aborts with the exception
propagating. -/
theorem terminate_loop_first_failure
    (ps : List TrackedProcess) (p : TrackedProcess) (qs : List TrackedProcess)
    (hps : ∀ q ∈ ps, q.terminate_raises = false)
    (hp : p.terminate_raises = true) :
    terminate_loop (ps ++ p :: qs) =
      (ps.map TrackedProcess.name ++ [p.name], true) := by
  induction ps with
  | nil => simp [terminate_loop, hp]
  | cons q ps ih =>
      have hq : q.terminate_raises = false := hps q (by simp)
      have h2 := ih (fun r hr => hps r (by simp [hr]))
      simp [terminate_loop, hq, h2]

/-- Claim C5 (amended): during shutdown, termination is attempted for
tracked processes in launch order, but a termination failure of a single
tracked process is neither caught nor recorded — the exception
propagates out of `main` and no later tracked process receives a
termination attempt. -/
theorem C5_amended_failure_aborts_shutdown
    (ps : List TrackedProcess) (p : TrackedProcess) (qs : List TrackedProcess)
    (hps : ∀ q ∈ ps, q.terminate_raises = false)
    (hp : p.terminate_raises = true) :
    main_run (SetupOutcome.ok (ps ++ p :: qs)) =
      { termination_attempts := ps.map TrackedProcess.name ++ [p.name],
        uncaught_error := true } := by
  have h := terminate_loop_first_failure ps p qs hps hp
  simp [main_run, h]

/-- Witness for the amended C5 at a concrete three-process list. -/
theorem C5_amended_witness :
    main_run (SetupOutcome.ok
      [{ name := "a", terminate_raises := false },
       { name := "b", terminate_raises := true },
       { name := "c", terminate_raises := false }]) =
      { termination_attempts := ["a", "b"], uncaught_error := true } :=
  C5_amended_failure_aborts_shutdown
    [{ name := "a", terminate_raises := false }]
    { name := "b", terminate_raises := true }
    [{ name := "c", terminate_raises := false }]
    (by decide) rfl

/-- Claim C6: for every primary estimator other than `ukf2d`, the
published output record's x, y, vel_x, vel_y are exactly the primary
message's corresponding fields. -/
theorem C6_passthrough_for_non_ukf2d
    (s : StateEstimatorNode) (msg : State) (now : Nat)
    (hp : s.primary_estimator ≠ Estimator.ukf2d) :
    let out := (state_callback s now msg).state_msg
    out.pose_with_covariance.pose.position.x =
      msg.pose_with_covariance.pose.position.x ∧
    out.pose_with_covariance.pose.position.y =
      msg.pose_with_covariance.pose.position.y ∧
    out.twist_with_covariance.twist.linear.x =
      msg.twist_with_covariance.twist.linear.x ∧
    out.twist_with_covariance.twist.linear.y =
      msg.twist_with_covariance.twist.linear.y := by
  simp [state_callback, hp]

/-- Witness for C6 with primary = ema at a concrete message. -/
theorem C6_witness :
    (let out := (state_callback (initial_node Estimator.ema) 10
        primary_sample).state_msg
     out.pose_with_covariance.pose.position.x =
       primary_sample.pose_with_covariance.pose.position.x ∧
     out.pose_with_covariance.pose.position.y =
       primary_sample.pose_with_covariance.pose.position.y ∧
     out.twist_with_covariance.twist.linear.x =
       primary_sample.twist_with_covariance.twist.linear.x ∧
     out.twist_with_covariance.twist.linear.y =
       primary_sample.twist_with_covariance.twist.linear.y) :=
  C6_passthrough_for_non_ukf2d (initial_node Estimator.ema) primary_sample 10
    (by decide)

/-- Claim C7: under the auxiliary-fusion topology (primary = `ukf2d`),
fusing any primary message before any auxiliary message has arrived
yields x=0, y=0, vel_x=0, vel_y=0, the freshly constructed cache's
neutral defaults; `state_callback` is a total function, so no error is
raised and every output field is defined. -/
theorem C7_neutral_defaults_before_first_aux (msg : State) (now : Nat) :
    let out := (state_callback (initial_node Estimator.ukf2d) now msg).state_msg
    out.pose_with_covariance.pose.position.x = 0 ∧
    out.pose_with_covariance.pose.position.y = 0 ∧
    out.twist_with_covariance.twist.linear.x = 0 ∧
    out.twist_with_covariance.twist.linear.y = 0 := by
  simp [state_callback, initial_node, State.default]

/-- Claim C8: for every primary message fused, under every topology
(the node state `s`, hence the primary choice and cache contents, is
arbitrary), z, vel_z, orientation and angular velocity, and both
covariance blocks, are taken from the primary message `msg`, never from
the auxiliary cache. -/
theorem C8_primary_always_authoritative
    (s : StateEstimatorNode) (msg : State) (now : Nat) :
    let out := (state_callback s now msg).state_msg
    out.pose_with_covariance.pose.position.z =
      msg.pose_with_covariance.pose.position.z ∧
    out.twist_with_covariance.twist.linear.z =
      msg.twist_with_covariance.twist.linear.z ∧
    out.pose_with_covariance.pose.orientation =
      msg.pose_with_covariance.pose.orientation ∧
    out.twist_with_covariance.twist.angular =
      msg.twist_with_covariance.twist.angular ∧
    out.pose_with_covariance.covariance =
      msg.pose_with_covariance.covariance ∧
    out.twist_with_covariance.covariance =
      msg.twist_with_covariance.covariance := by
  simp [state_callback]

/-- Claim C9: handling an auxiliary (EMA) message overwrites exactly the
cache's x, y, vel_x, vel_y with the message's fields, leaves every other
cache field, the output record, the primary choice and the publication
trace unchanged — in particular it never publishes. -/
theorem C9_aux_callback_frame (s : StateEstimatorNode) (msg : State) :
    let s2 := ema_helper_callback s msg
    s2.ema_state_msg.pose_with_covariance.pose.position.x =
      msg.pose_with_covariance.pose.position.x ∧
    s2.ema_state_msg.pose_with_covariance.pose.position.y =
      msg.pose_with_covariance.pose.position.y ∧
    s2.ema_state_msg.twist_with_covariance.twist.linear.x =
      msg.twist_with_covariance.twist.linear.x ∧
    s2.ema_state_msg.twist_with_covariance.twist.linear.y =
      msg.twist_with_covariance.twist.linear.y ∧
    s2.ema_state_msg.pose_with_covariance.pose.position.z =
      s.ema_state_msg.pose_with_covariance.pose.position.z ∧
    s2.ema_state_msg.pose_with_covariance.pose.orientation =
      s.ema_state_msg.pose_with_covariance.pose.orientation ∧
    s2.ema_state_msg.pose_with_covariance.covariance =
      s.ema_state_msg.pose_with_covariance.covariance ∧
    s2.ema_state_msg.twist_with_covariance.twist.linear.z =
      s.ema_state_msg.twist_with_covariance.twist.linear.z ∧
    s2.ema_state_msg.twist_with_covariance.twist.angular =
      s.ema_state_msg.twist_with_covariance.twist.angular ∧
    s2.ema_state_msg.twist_with_covariance.covariance =
      s.ema_state_msg.twist_with_covariance.covariance ∧
    s2.ema_state_msg.header = s.ema_state_msg.header ∧
    s2.state_msg = s.state_msg ∧
    s2.primary_estimator = s.primary_estimator ∧
    s2.published = s.published := by
  simp [ema_helper_callback]

/-- Claim C10: the composed launch commands are independent of the four
throttle boolean parameters the constructor accepts — any two runs
differing only in those booleans launch the same command strings,
because the parameters are never read. -/
theorem C10_cmds_independent_of_throttle_params
    (primary : Estimator) (others : Option (List Estimator)) (sdim : Nat)
    (f1 f2 : ThrottleFlags) :
    stateEstimator_process_cmds primary others f1 sdim =
      stateEstimator_process_cmds primary others f2 sdim := rfl

end Pidrone
